import Mathlib

/- Verification development for the technical-indicator computation engine of the
crypto-limit-order-dex trading dashboard.  The calculators (moving average, RSI,
Bollinger Bands, MACD, Stochastic Oscillator, ADX), the enrichment step, the
parameter validator and the preset store are shallowly embedded from the
TypeScript source.  JavaScript numbers are modelled by the rationals; a JS
`null`/`undefined` entry of a result array is modelled by `Option.none`.
Indexed `Array.map` callbacks that only use the index are rendered as maps over
`List.range`, and JS `slice(start, end)` windows as `drop`/`take`. -/

set_option maxHeartbeats 1600000
set_option maxRecDepth 16000

/-- One OHLCV bar (interface CandlestickData / ChartData of the source).  The
field `open_` renders the source field `open`, which is a reserved word in
Lean. -/
structure Candle where
  timestamp : String
  open_ : ℚ
  high : ℚ
  low : ℚ
  close : ℚ
  volume : ℚ
deriving Repr, DecidableEq, Inhabited

/-- Close price of the bar at index `i` (out-of-range access yields the default
bar; every use below is guarded by an in-range condition). -/
def closeAt (data : List Candle) (i : ℕ) : ℚ :=
  (data.getD i default).close

namespace AdvancedChart

/- Embeddings of the calculator functions of
src/src/components/AdvancedChart.tsx. -/

/-- calculateMA: simple moving average of close over a trailing window of
`period` bars; `none` before the warm-up index `period - 1`. -/
def calculateMA (data : List Candle) (period : ℕ) : List (Option ℚ) :=
  (List.range data.length).map (fun index =>
    if index < period - 1 then none
    else some ((((data.drop (index + 1 - period)).take period).map (fun c => c.close)).sum
      / (period : ℚ)))

/-- Per-bar (gain, loss) pairs of calculateRSI: index 0 has no prior bar and
yields (0, 0). -/
def changes (data : List Candle) : List (ℚ × ℚ) :=
  (List.range data.length).map (fun index =>
    if index = 0 then (0, 0)
    else
      let change := closeAt data index - closeAt data (index - 1)
      (if 0 < change then change else 0, if change < 0 then -change else 0))

/-- calculateRSI of AdvancedChart.tsx: trailing simple averages of gains and
losses; the quotient `rs` is taken with the plain (unguarded) division of the
source, so the value at a zero average loss is the junk value of division by
zero. -/
def calculateRSI (data : List Candle) (period : ℕ) : List (Option ℚ) :=
  (List.range data.length).map (fun index =>
    if index < period then none
    else
      let slice := ((changes data).drop (index + 1 - period)).take period
      let gain := (slice.map Prod.fst).sum / (period : ℚ)
      let loss := (slice.map Prod.snd).sum / (period : ℚ)
      let rs := gain / loss
      some (100 - 100 / (1 + rs)))

/-- The `macd` local of calculateMACD: fast MA minus slow MA where both are
defined. -/
def macdLine (data : List Candle) (fastPeriod slowPeriod : ℕ) : List (Option ℚ) :=
  (List.range data.length).map (fun index =>
    match (calculateMA data fastPeriod).getD index none,
        (calculateMA data slowPeriod).getD index none with
    | some fast, some slow => some (fast - slow)
    | _, _ => none)

/-- The bar list fed to the signal moving average: each macd entry re-packaged
as a bar with close `value || 0` and the timestamp of the underlying bar (the
other fields are absent in the source object and are rendered as 0). -/
def signalCandles (data : List Candle) (fastPeriod slowPeriod : ℕ) : List Candle :=
  (List.range data.length).map (fun index =>
    { timestamp := (data.getD index default).timestamp, open_ := 0, high := 0, low := 0,
      close := ((macdLine data fastPeriod slowPeriod).getD index none).getD 0, volume := 0 })

/-- The `histogram` local of calculateMACD: macd minus signal where both are
defined. -/
def histogramLine (data : List Candle) (fastPeriod slowPeriod signalPeriod : ℕ) :
    List (Option ℚ) :=
  (List.range data.length).map (fun index =>
    match (macdLine data fastPeriod slowPeriod).getD index none,
        (calculateMA (signalCandles data fastPeriod slowPeriod) signalPeriod).getD index none with
    | some m, some s => some (m - s)
    | _, _ => none)

/-- calculateMACD: returns (macd, signal, histogram) assembled from the locals
of the source function. -/
def calculateMACD (data : List Candle) (fastPeriod slowPeriod signalPeriod : ℕ) :
    List (Option ℚ) × List (Option ℚ) × List (Option ℚ) :=
  (macdLine data fastPeriod slowPeriod,
   calculateMA (signalCandles data fastPeriod slowPeriod) signalPeriod,
   histogramLine data fastPeriod slowPeriod signalPeriod)

/-- Raw stochastic %K values (the `stochValues` array of the source, projected
to its `k` field): `none` before index `period - 1`, otherwise the position of
the close within the trailing high/low range, scaled to 100. -/
def stochValues (data : List Candle) (period : ℕ) : List (Option ℚ) :=
  (List.range data.length).map (fun index =>
    if index < period - 1 then none
    else
      let slice := (data.drop (index + 1 - period)).take period
      let highestHigh := ((slice.map (fun d => d.high)).max?).getD 0
      let lowestLow := ((slice.map (fun d => d.low)).min?).getD 0
      some ((closeAt data index - lowestLow) / (highestHigh - lowestLow) * 100))

/-- The smoothing step shared by the smoothed %K and the %D computations of
calculateStochastic: a trailing window of length `s` over an optional series,
averaging the non-null entries of the window and yielding `none` when the
window holds none. -/
def smoothAvg (xs : List (Option ℚ)) (s : ℕ) : List (Option ℚ) :=
  (List.range xs.length).map (fun index =>
    if index < s - 1 then none
    else
      let validK := ((xs.drop (index + 1 - s)).take s).filterMap id
      if validK.length = 0 then none
      else some (validK.sum / (validK.length : ℚ)))

/-- calculateStochastic: returns (smoothed %K, %D). -/
def calculateStochastic (data : List Candle) (period smoothK smoothD : ℕ) :
    List (Option ℚ) × List (Option ℚ) :=
  let smoothedK := smoothAvg (stochValues data period) smoothK
  (smoothedK, smoothAvg smoothedK smoothD)

/-- Per-bar true range and directional movement of calculateADX. -/
def trDm (data : List Candle) : List (ℚ × ℚ × ℚ) :=
  (List.range data.length).map (fun index =>
    if index = 0 then (0, 0, 0)
    else
      let candle := data.getD index default
      let previousCandle := data.getD (index - 1) default
      let tr := max (candle.high - candle.low)
        (max |candle.high - previousCandle.close| |candle.low - previousCandle.close|)
      let plusDM := if previousCandle.low - candle.low < candle.high - previousCandle.high
        then max (candle.high - previousCandle.high) 0 else 0
      let minusDM := if candle.high - previousCandle.high < previousCandle.low - candle.low
        then max (previousCandle.low - candle.low) 0 else 0
      (tr, plusDM, minusDM))

/-- One entry of the `indicators` array of calculateADX. -/
structure DIRec where
  plusDI : Option ℚ
  minusDI : Option ℚ
  dx : Option ℚ
deriving Repr, DecidableEq, Inhabited

/-- The running computation of the `indicators` array of calculateADX: the
first `period` indices accumulate raw TR/DM sums (divided by `period` at index
`period - 1`) and emit null records; later indices apply Wilder smoothing and
emit the directional indicators and DX. -/
def diGo (period : ℕ) : ℕ → ℚ × ℚ × ℚ → List (ℚ × ℚ × ℚ) → List DIRec
  | _, _, [] => []
  | index, (smoothedTR, smoothedPlusDM, smoothedMinusDM), v :: rest =>
    if index < period then
      let aTR := smoothedTR + v.1
      let aPDM := smoothedPlusDM + v.2.1
      let aMDM := smoothedMinusDM + v.2.2
      let st := if index = period - 1
        then (aTR / (period : ℚ), aPDM / (period : ℚ), aMDM / (period : ℚ))
        else (aTR, aPDM, aMDM)
      ⟨none, none, none⟩ :: diGo period (index + 1) st rest
    else
      let sTR := (smoothedTR * ((period : ℚ) - 1) + v.1) / (period : ℚ)
      let sPDM := (smoothedPlusDM * ((period : ℚ) - 1) + v.2.1) / (period : ℚ)
      let sMDM := (smoothedMinusDM * ((period : ℚ) - 1) + v.2.2) / (period : ℚ)
      let plusDI := sPDM / sTR * 100
      let minusDI := sMDM / sTR * 100
      let dx := |plusDI - minusDI| / (plusDI + minusDI) * 100
      ⟨some plusDI, some minusDI, some dx⟩ :: diGo period (index + 1) (sTR, sPDM, sMDM) rest

/-- The `indicators` array of calculateADX. -/
def diList (data : List Candle) (period : ℕ) : List DIRec :=
  diGo period 0 (0, 0, 0) (trDm data)

/-- The JS exception the `adx` array construction raises: the source writes
`const adx = indicators.map((values, index) => ... adx[index - 1] ?? 0 ...)`,
so the map callback reads the `adx` binding while its own initializer is still
running; that binding is uninitialized (temporal dead zone) and the element
read throws a ReferenceError before the `?? 0` default can apply.  An ES5
downlevel (`var` hoisting) throws a TypeError at the same read; either way the
call aborts, which this single constructor models. -/
inductive EvalError where
  | referenceError
deriving Repr, DecidableEq

/-- The seeding value of the ADX: the simple average of the DX values at
indices `period .. 2*period - 1` (the `adxSum` loop of the source, which reads
only the already-initialized `indicators` array). -/
def adxSeed (data : List Candle) (period : ℕ) : ℚ :=
  ((((diList data period).drop period).take period).map (fun r => r.dx.getD 0)).sum
    / (period : ℚ)

/-- One callback evaluation of the `adx` array construction.  Indices below
the warm-up and indices with a falsy DX (`!values.dx`: DX null or exactly 0,
rendered as `dx.getD 0 = 0`, which agrees on both constructors) return
undefined without touching `adx`; the seed index `2*period - 1` reads only
`indicators`; every later index evaluates `adx[index - 1]`, the read of the
still-uninitialized `adx` const, and throws. -/
def adxEntry (period : ℕ) (seed : ℚ) (index : ℕ) (dx : Option ℚ) :
    Except EvalError (Option ℚ) :=
  if index < 2 * period - 1 ∨ dx.getD 0 = 0 then .ok none
  else if index = 2 * period - 1 then .ok (some seed)
  else .error .referenceError

/-- The `const adx = indicators.map(...)` construction: the callbacks run in
index order and the first thrown entry aborts the whole array. -/
def adxGo (period : ℕ) (seed : ℚ) : ℕ → List DIRec → Except EvalError (List (Option ℚ))
  | _, [] => .ok []
  | index, r :: rest =>
    match adxEntry period seed index r.dx with
    | .error e => .error e
    | .ok cur =>
      match adxGo period seed (index + 1) rest with
      | .error e => .error e
      | .ok curs => .ok (cur :: curs)

/-- The `adx` array of calculateADX: the completed array when no callback
throws, the propagated exception otherwise. -/
def adxList (data : List Candle) (period : ℕ) : Except EvalError (List (Option ℚ)) :=
  adxGo period (adxSeed data period) 0 (diList data period)

/-- calculateADX: per-index records (adx, plusDI, minusDI) when the `adx`
array materializes, the propagated exception otherwise. -/
def calculateADX (data : List Candle) (period : ℕ) :
    Except EvalError (List (Option ℚ × Option ℚ × Option ℚ)) :=
  match adxList data period with
  | .error e => .error e
  | .ok adx =>
    .ok ((List.range data.length).map (fun index =>
      (adx.getD index none,
       ((diList data period).getD index default).plusDI,
       ((diList data period).getD index default).minusDI)))

/-- calculateBollingerBands: per-index (upper, lower) pair; `Math.sqrt` forces
the band values into the reals, so this definition is noncomputable while the
underlying moving average stays rational. -/
noncomputable def calculateBollingerBands (data : List Candle) (period : ℕ) (stdDev : ℝ) :
    List (Option ℝ × Option ℝ) :=
  let ma := calculateMA data period
  (List.range data.length).map (fun index =>
    match ma.getD index none with
    | none => (none, none)
    | some m =>
      let slice := (data.drop (index + 1 - period)).take period
      let std := Real.sqrt
        ((slice.map (fun curr => ((curr.close : ℝ) - (m : ℝ)) ^ 2)).sum / (period : ℝ))
      (some ((m : ℝ) + stdDev * std), some ((m : ℝ) - stdDev * std)))

/-- Truthiness of a nullable JS number: `if (x) enriched.f = x` keeps the field
absent when x is null or exactly 0. -/
def truthy (o : Option ℚ) : Option ℚ :=
  match o with
  | none => none
  | some v => if v = 0 then none else some v

open scoped Classical in
/-- Truthiness for the real-valued band fields. -/
noncomputable def truthyR (o : Option ℝ) : Option ℝ :=
  match o with
  | none => none
  | some v => if v = 0 then none else some v

/-- One enriched point of the fetchData mapping: the bar plus the sparse
indicator fields. -/
structure EnrichedPoint where
  timestamp : String
  open_ : ℚ
  high : ℚ
  low : ℚ
  close : ℚ
  volume : ℚ
  ma20 : Option ℚ := none
  ma50 : Option ℚ := none
  ma200 : Option ℚ := none
  rsi : Option ℚ := none
  upperBand : Option ℝ := none
  lowerBand : Option ℝ := none
  macd : Option ℚ := none
  signal : Option ℚ := none
  histogram : Option ℚ := none
  stochK : Option ℚ := none
  stochD : Option ℚ := none
  adx : Option ℚ := none
  plusDI : Option ℚ := none
  minusDI : Option ℚ := none
deriving Inhabited

/-- The bare enriched point before any indicator block runs (the spread of
the candle into `enriched`). -/
def basePoint (candle : Candle) : EnrichedPoint :=
  { timestamp := candle.timestamp, open_ := candle.open_, high := candle.high,
    low := candle.low, close := candle.close, volume := candle.volume }

/-- The MA block of the enrichedData mapping (`if (ma20) enriched.ma20 =
ma20` and so on). -/
def enrichMA (indicators : List String) (mockData : List Candle) (index : ℕ)
    (e : EnrichedPoint) : EnrichedPoint :=
  if "MA" ∈ indicators then
    { e with
      ma20 := truthy ((calculateMA mockData 20).getD index none),
      ma50 := truthy ((calculateMA mockData 50).getD index none),
      ma200 := truthy ((calculateMA mockData 200).getD index none) }
  else e

/-- The RSI block of the enrichedData mapping. -/
def enrichRSI (indicators : List String) (mockData : List Candle) (index : ℕ)
    (e : EnrichedPoint) : EnrichedPoint :=
  if "RSI" ∈ indicators then
    { e with rsi := truthy ((calculateRSI mockData 14).getD index none) }
  else e

/-- The Bollinger block of the enrichedData mapping. -/
noncomputable def enrichBollinger (indicators : List String) (mockData : List Candle)
    (index : ℕ) (e : EnrichedPoint) : EnrichedPoint :=
  if "Bollinger Bands" ∈ indicators then
    { e with
      upperBand := truthyR (((calculateBollingerBands mockData 20 2).getD index (none, none)).1),
      lowerBand := truthyR (((calculateBollingerBands mockData 20 2).getD index (none, none)).2) }
  else e

/-- The MACD block of the enrichedData mapping. -/
def enrichMACD (indicators : List String) (mockData : List Candle) (index : ℕ)
    (e : EnrichedPoint) : EnrichedPoint :=
  if "MACD" ∈ indicators then
    { e with
      macd := truthy ((calculateMACD mockData 12 26 9).1.getD index none),
      signal := truthy ((calculateMACD mockData 12 26 9).2.1.getD index none),
      histogram := truthy ((calculateMACD mockData 12 26 9).2.2.getD index none) }
  else e

/-- The Stochastic block of the enrichedData mapping. -/
def enrichStochastic (indicators : List String) (mockData : List Candle) (index : ℕ)
    (e : EnrichedPoint) : EnrichedPoint :=
  if "Stochastic" ∈ indicators then
    { e with
      stochK := truthy ((calculateStochastic mockData 14 3 3).1.getD index none),
      stochD := truthy ((calculateStochastic mockData 14 3 3).2.getD index none) }
  else e

/-- The ADX block of the enrichedData mapping: when the calculateADX call
completes, its three fields are assigned through one truthiness check of the
whole per-index record (always truthy in range), so they are copied without
a per-value check.  When calculateADX throws, the exception escapes the whole
enrichedData map into the fetchData try/catch and no enriched point is
produced at all; that aborting path is kept total here by leaving the point
unchanged, and no property below reads the ADX fields. -/
def enrichADX (indicators : List String) (mockData : List Candle) (index : ℕ)
    (e : EnrichedPoint) : EnrichedPoint :=
  if "ADX" ∈ indicators then
    match calculateADX mockData 14 with
    | .ok adxData =>
      { e with
        adx := (adxData.getD index (none, none, none)).1,
        plusDI := (adxData.getD index (none, none, none)).2.1,
        minusDI := (adxData.getD index (none, none, none)).2.2 }
    | .error _ => e
  else e

/-- The enrichedData mapping of fetchData: each active indicator block in
turn writes its fields into the enriched point. -/
noncomputable def enrichedData (indicators : List String) (mockData : List Candle) :
    List EnrichedPoint :=
  (List.range mockData.length).map (fun index =>
    enrichADX indicators mockData index
      (enrichStochastic indicators mockData index
        (enrichMACD indicators mockData index
          (enrichBollinger indicators mockData index
            (enrichRSI indicators mockData index
              (enrichMA indicators mockData index
                (basePoint (mockData.getD index default))))))))

end AdvancedChart

namespace Part014

/- Embeddings from the parameterized chart component (src/unnamed/part_014),
whose RSI calculator carries the documented division-by-zero guard
`avgGain / (avgLoss || 1)`. -/

/-- Per-bar (gain, loss) pairs, as in the AdvancedChart version. -/
def changes (data : List Candle) : List (ℚ × ℚ) :=
  (List.range data.length).map (fun index =>
    if index = 0 then (0, 0)
    else
      let change := closeAt data index - closeAt data (index - 1)
      (if 0 < change then change else 0, if change < 0 then -change else 0))

/-- Trailing average gain over the window ending at index `i` (the `avgGain`
local of the source RSI). -/
def avgGainAt (data : List Candle) (period i : ℕ) : ℚ :=
  ((((changes data).drop (i + 1 - period)).take period).map Prod.fst).sum / (period : ℚ)

/-- Trailing average loss over the window ending at index `i` (the `avgLoss`
local of the source RSI). -/
def avgLossAt (data : List Candle) (period i : ℕ) : ℚ :=
  ((((changes data).drop (i + 1 - period)).take period).map Prod.snd).sum / (period : ℚ)

/-- calculateRSI of part_014: `rs = avgGain / (avgLoss || 1)` — a zero average
loss makes the denominator 1. -/
def calculateRSI (data : List Candle) (period : ℕ) : List (Option ℚ) :=
  (List.range data.length).map (fun index =>
    if index < period then none
    else
      let avgGain := avgGainAt data period index
      let avgLoss := avgLossAt data period index
      let rs := avgGain / (if avgLoss = 0 then 1 else avgLoss)
      some (100 - 100 / (1 + rs)))

end Part014

namespace Presets

/- Embedding of the preset store: the PresetConfig shape and defaultPresets of
src/constants/indicatorPresets.ts (src/unnamed/part_010) and the
saveCustomPreset / getPresetParams operations of the usePresets hook
(src/unnamed/part_013).  The hook state `presets` is the list
`defaultPresets ++ customPresets`; the operations are modelled as pure
transitions on that list. -/

/-- MA parameter bundle. -/
structure MAParams where
  periods : List ℚ
deriving Repr, DecidableEq

/-- RSI parameter bundle. -/
structure RSIParams where
  period : ℚ
deriving Repr, DecidableEq

/-- Bollinger Bands parameter bundle. -/
structure BollingerBandsParams where
  period : ℚ
  stdDev : ℚ
deriving Repr, DecidableEq

/-- MACD parameter bundle. -/
structure MACDParams where
  fastPeriod : ℚ
  slowPeriod : ℚ
  signalPeriod : ℚ
deriving Repr, DecidableEq

/-- Stochastic parameter bundle. -/
structure StochasticParams where
  period : ℚ
  smoothK : ℚ
  smoothD : ℚ
deriving Repr, DecidableEq

/-- ADX parameter bundle. -/
structure ADXParams where
  period : ℚ
deriving Repr, DecidableEq

/-- IndicatorParams: the partial map from indicator kind to its bundle.  The
source spells the third key with a space (Bollinger Bands); here it is the
field `bollingerBands`. -/
structure IndicatorParams where
  MA : Option MAParams := none
  RSI : Option RSIParams := none
  bollingerBands : Option BollingerBandsParams := none
  MACD : Option MACDParams := none
  Stochastic : Option StochasticParams := none
  ADX : Option ADXParams := none
deriving Repr, DecidableEq

/-- PresetConfig: name and description metadata, the optional isCustom flag
(absent on built-ins) and the indicator parameters, which the source spreads
flat into the same object. -/
structure PresetConfig where
  name : String
  description : String
  isCustom : Option Bool := none
  params : IndicatorParams
deriving Repr, DecidableEq

/-- The three seeded built-in presets. -/
def defaultPresets : List PresetConfig :=
  [⟨"Trend Following", "Moving averages and ADX for trend identification", none,
    { MA := some ⟨[20, 50, 200]⟩, ADX := some ⟨14⟩ }⟩,
   ⟨"Momentum Trading", "RSI and MACD for momentum analysis", none,
    { RSI := some ⟨14⟩, MACD := some ⟨12, 26, 9⟩ }⟩,
   ⟨"Volatility Trading", "Bollinger Bands and Stochastic for volatility analysis", none,
    { bollingerBands := some ⟨20, 2⟩, Stochastic := some ⟨14, 3, 3⟩ }⟩]

/-- Truthiness of the optional isCustom flag (the `p.isCustom` filter of the
source). -/
def isCustomTruthy (p : PresetConfig) : Bool :=
  p.isCustom.getD false

/-- The replace-by-name-or-push block of saveCustomPreset (findIndex then
in-place assignment, else push). -/
def upsertByName (customPresets : List PresetConfig) (newPreset : PresetConfig) :
    List PresetConfig :=
  match customPresets.findIdx? (fun p => p.name == newPreset.name) with
  | some existingIndex => customPresets.set existingIndex newPreset
  | none => customPresets ++ [newPreset]

/-- saveCustomPreset: filter the custom presets out of the current state,
replace-by-name or append the new preset, and rebuild the state as built-ins
followed by customs.  Always succeeds (the source returns true absent storage
exceptions). -/
def saveCustomPreset (presets : List PresetConfig) (name : String)
    (params : IndicatorParams) (description : String) : List PresetConfig :=
  let customPresets := presets.filter (fun p => isCustomTruthy p)
  let newPreset : PresetConfig := ⟨name, description, some true, params⟩
  defaultPresets ++ upsertByName customPresets newPreset

/-- getPresetParams: find the first preset of the given name in the state
(built-ins first) and strip the name/description/isCustom metadata, keeping
only the parameter bundle. -/
def getPresetParams (presets : List PresetConfig) (name : String) : Option IndicatorParams :=
  (presets.find? (fun p => p.name == name)).map (fun p => p.params)

end Presets

namespace Validator

/- Embedding of validateAndUpdate and its validationRules table from
src/src/components/IndicatorSettings.tsx.  The JS string helpers split /
trim / parseInt / parseFloat are modelled character-listwise; the interpolated
error message templates are modelled as structured values carrying the
interpolated bounds. -/

/-- One row of the validationRules table. -/
structure VRule where
  min : ℚ
  max : ℚ
  step : ℚ
  description : String
deriving Repr, DecidableEq

/-- The validationRules table (the nested object literal of the source). -/
def validationRules (indicator param : String) : Option VRule :=
  match indicator, param with
  | "MA", "periods" => some ⟨1, 500, 1,
      "Number of periods to calculate the moving average. Common values are 20 (short-term), 50 (medium-term), and 200 (long-term) periods."⟩
  | "RSI", "period" => some ⟨2, 100, 1,
      "Number of periods used to calculate RSI. Standard is 14 periods. Lower values increase sensitivity."⟩
  | "Bollinger Bands", "period" => some ⟨5, 100, 1,
      "Number of periods for the moving average. Standard is 20 periods."⟩
  | "Bollinger Bands", "stdDev" => some ⟨1/10, 5, 1/10,
      "Number of standard deviations for the bands. Standard is 2. Higher values create wider bands."⟩
  | "MACD", "fastPeriod" => some ⟨2, 100, 1,
      "Number of periods for the fast EMA. Standard is 12 periods."⟩
  | "MACD", "slowPeriod" => some ⟨2, 100, 1,
      "Number of periods for the slow EMA. Standard is 26 periods."⟩
  | "MACD", "signalPeriod" => some ⟨2, 100, 1,
      "Number of periods for the signal line. Standard is 9 periods."⟩
  | "Stochastic", "period" => some ⟨1, 100, 1,
      "Look-back period for highest high and lowest low. Standard is 14 periods."⟩
  | "Stochastic", "smoothK" => some ⟨1, 10, 1,
      "Smoothing for %K line. Standard is 3 periods."⟩
  | "Stochastic", "smoothD" => some ⟨1, 10, 1,
      "Smoothing for %D line. Standard is 3 periods."⟩
  | "ADX", "period" => some ⟨2, 100, 1,
      "Number of periods for ADX calculation. Standard is 14 periods."⟩
  | _, _ => none

/-- A JS value reaching the validator: a number or a string. -/
inductive JSValue where
  | num (value : ℚ)
  | str (value : String)
deriving Repr, DecidableEq

/-- Decimal digits folded into a natural number. -/
def digitsToNat (cs : List Char) : ℕ :=
  cs.foldl (fun n c => n * 10 + (c.toNat - 48)) 0

/-- Longest leading run of decimal digits, or none when there is no digit:
models the JS parseInt core on a sign-stripped input (NaN becomes none). -/
def parseDigits (cs : List Char) : Option ℕ :=
  let ds := cs.takeWhile (fun c => c.isDigit)
  if ds.isEmpty then none else some (digitsToNat ds)

/-- Model of the JS builtin parseInt on decimal input: optional sign then the
longest digit prefix, NaN (none) when no digit follows. -/
def parseIntChars (cs : List Char) : Option Int :=
  match cs with
  | '-' :: rest => (parseDigits rest).map (fun n => -(n : Int))
  | '+' :: rest => (parseDigits rest).map (fun n => (n : Int))
  | _ => (parseDigits cs).map (fun n => (n : Int))

/-- Model of the JS String.prototype.trim: strip whitespace at both ends. -/
def trimChars (cs : List Char) : List Char :=
  ((cs.dropWhile (fun c => c.isWhitespace)).reverse.dropWhile (fun c => c.isWhitespace)).reverse

/-- Model of the JS String.prototype.split with a one-character separator. -/
def splitOnCommaAux : List Char → List Char → List (List Char)
  | [], acc => [acc.reverse]
  | c :: rest, acc =>
    if c = ',' then acc.reverse :: splitOnCommaAux rest [] else splitOnCommaAux rest (c :: acc)

/-- The parsed MA periods list of the source:
`String(value).split(',').map(p => parseInt(p.trim())).filter(p => !isNaN(p))`. -/
def parsedPeriods (s : String) : List Int :=
  ((splitOnCommaAux s.data []).map (fun p => parseIntChars (trimChars p))).filterMap id

/-- Fraction digits folded into a rational in [0, 1). -/
def fracToRat (cs : List Char) : ℚ :=
  (digitsToNat cs : ℚ) / ((10 : ℚ) ^ cs.length)

/-- Model of the JS builtin parseFloat on plain decimal input (sign, integer
digits, optional fraction digits); none models NaN. -/
def parseFloatChars (cs : List Char) : Option ℚ :=
  let core : List Char → Option ℚ := fun ds =>
    let intDs := ds.takeWhile (fun c => c.isDigit)
    let rest := ds.drop intDs.length
    match rest with
    | '.' :: fs =>
      let fracDs := fs.takeWhile (fun c => c.isDigit)
      if intDs.isEmpty ∧ fracDs.isEmpty then none
      else some ((digitsToNat intDs : ℚ) + fracToRat fracDs)
    | _ => if intDs.isEmpty then none else some (digitsToNat intDs : ℚ)
  match cs with
  | '-' :: rest => (core rest).map (fun q => -q)
  | '+' :: rest => core rest
  | _ => core cs

/-- The coercion of the incoming value to a number:
`typeof value === 'string' ? parseFloat(value) : value`, with none for NaN. -/
def toNumber (value : JSValue) : Option ℚ :=
  match value with
  | .num q => some q
  | .str s => parseFloatChars (trimChars s.data)

/-- Decimal rendering of a natural number (fuel-based digit extraction). -/
def natReprChars : ℕ → ℕ → List Char
  | 0, _ => []
  | fuel + 1, n => if n = 0 then [] else natReprChars fuel (n / 10) ++ [Char.ofNat (48 + n % 10)]

/-- Model of the JS String() conversion on the values the validator receives:
strings pass through; numbers render decimally (integer case; non-integral
rationals render as num/den, a case no rule bound of the table reaches through
this conversion because the periods field always arrives as a string). -/
def jsString (value : JSValue) : String :=
  match value with
  | .str s => s
  | .num q =>
    let natPart : ℕ → String := fun n => if n = 0 then "0" else ⟨natReprChars (n + 1) n⟩
    let core := if q.den = 1 then natPart q.num.natAbs
      else natPart q.num.natAbs ++ "/" ++ natPart q.den
    if q.num < 0 then "-" ++ core else core

/-- The interpolated error message templates of validateAndUpdate, modelled as
structured values: valueBetween renders the template
Value must be between (min) and (max), periodsBetween the template
Periods must be between (min) and (max). -/
inductive ValidationMessage where
  | valueBetween (lo hi : ℚ)
  | periodsBetween (lo hi : ℚ)
deriving Repr, DecidableEq

/-- The per-field outcome validateAndUpdate writes into its error map and
parameter state: acceptance with the parsed value(s), rejection with the
message, or the unreachable missing-rule lookup. -/
inductive ValidationOutcome where
  | accepted (value : ℚ)
  | acceptedPeriods (periods : List Int)
  | rejected (message : ValidationMessage)
  | missingRule
deriving Repr, DecidableEq

/-- validateAndUpdate of IndicatorSettings.tsx, reduced to its per-field
decision: the MA periods branch parses a comma-separated list, drops
non-numeric entries and rejects the whole field when any parsed entry is out
of range; every other (indicator, param) coerces to a number and bounds-checks
it. -/
def validateAndUpdate (indicator param : String) (value : JSValue) : ValidationOutcome :=
  if indicator = "MA" ∧ param = "periods" then
    match validationRules indicator param with
    | none => .missingRule
    | some rules =>
      let periods := parsedPeriods (jsString value)
      let invalidPeriods :=
        periods.filter (fun p : ℤ => (p : ℚ) < rules.min ∨ rules.max < (p : ℚ))
      if invalidPeriods.length ≠ 0 then .rejected (.periodsBetween rules.min rules.max)
      else .acceptedPeriods periods
  else
    match validationRules indicator param with
    | none => .missingRule
    | some rules =>
      match toNumber value with
      | none => .rejected (.valueBetween rules.min rules.max)
      | some numValue =>
        if numValue < rules.min ∨ rules.max < numValue then
          .rejected (.valueBetween rules.min rules.max)
        else .accepted numValue

end Validator

/- Specification-side formulations.  Each of the following Props renders one
documented property of the engine in terms of index-wise window means, so the
theorems below relate the embedded calculators to independent formulations. -/

/-- Arithmetic mean of close over the index window ending at `i` of length
`period`. -/
def maMean (data : List Candle) (period i : ℕ) : ℚ :=
  ((List.range period).map (fun j => closeAt data (i + 1 - period + j))).sum / (period : ℚ)

/-- Documented MA contract: same output length, absent strictly below the
warm-up index `period - 1`, the trailing arithmetic mean from there on, and
close passthrough at period 1. -/
def maSpec (data : List Candle) (period : ℕ) : Prop :=
  (AdvancedChart.calculateMA data period).length = data.length ∧
  (∀ i < data.length, i < period - 1 →
    (AdvancedChart.calculateMA data period).getD i none = none) ∧
  (∀ i < data.length, period - 1 ≤ i →
    (AdvancedChart.calculateMA data period).getD i none = some (maMean data period i)) ∧
  (period = 1 → AdvancedChart.calculateMA data period = data.map (fun c => some c.close))

/-- The zero-filled macd sequence feeding the signal moving average: the macd
value where macd is defined, 0 where it is not. -/
def macdOr0 (data : List Candle) (fastPeriod slowPeriod j : ℕ) : ℚ :=
  if slowPeriod - 1 ≤ j ∧ j < data.length
  then maMean data fastPeriod j - maMean data slowPeriod j else 0

/-- Trailing mean over the zero-filled macd sequence (the documented signal
line value). -/
def signalMean (data : List Candle) (fastPeriod slowPeriod signalPeriod i : ℕ) : ℚ :=
  ((List.range signalPeriod).map (fun j =>
    macdOr0 data fastPeriod slowPeriod (i + 1 - signalPeriod + j))).sum / (signalPeriod : ℚ)

/-- Documented MACD contract: macd is the difference of the fast and slow
moving averages exactly from index `slowPeriod - 1` on, the signal line is the
moving average of the zero-filled macd sequence (defined from
`signalPeriod - 1` on), and the histogram is macd minus signal exactly where
both are defined. -/
def macdSpec (data : List Candle) (fastPeriod slowPeriod signalPeriod : ℕ) : Prop :=
  ∀ i < data.length,
    (AdvancedChart.calculateMACD data fastPeriod slowPeriod signalPeriod).1.getD i none =
      (if slowPeriod - 1 ≤ i
       then some (maMean data fastPeriod i - maMean data slowPeriod i) else none) ∧
    (AdvancedChart.calculateMACD data fastPeriod slowPeriod signalPeriod).2.1.getD i none =
      (if signalPeriod - 1 ≤ i
       then some (signalMean data fastPeriod slowPeriod signalPeriod i) else none) ∧
    (AdvancedChart.calculateMACD data fastPeriod slowPeriod signalPeriod).2.2.getD i none =
      (if slowPeriod - 1 ≤ i ∧ signalPeriod - 1 ≤ i
       then some ((maMean data fastPeriod i - maMean data slowPeriod i) -
         signalMean data fastPeriod slowPeriod signalPeriod i) else none)

/-- Documented guard of the part_014 RSI: wherever the trailing average loss
is 0 the denominator is taken as 1, so the emitted value is
100 - 100 / (1 + avgGain). -/
def rsiGuardSpec (data : List Candle) (period : ℕ) : Prop :=
  ∀ i, period ≤ i → i < data.length → Part014.avgLossAt data period i = 0 →
    (Part014.calculateRSI data period).getD i none =
      some (100 - 100 / (1 + Part014.avgGainAt data period i))

/-- Population standard deviation (division by the window length, not by
length - 1) of close over the window ending at `i`, about the centre `m`. -/
noncomputable def popStdAt (data : List Candle) (period i : ℕ) (m : ℚ) : ℝ :=
  Real.sqrt (((List.range period).map
    (fun j => ((closeAt data (i + 1 - period + j) : ℝ) - (m : ℝ)) ^ 2)).sum / (period : ℝ))

/-- Documented Bollinger contract: wherever the middle band (the moving
average) is defined the pair is (middle + k sigma, middle - k sigma) for the
population standard deviation sigma of the same trailing window, hence the
bands are symmetric about the middle. -/
def bollingerSpec (data : List Candle) (period : ℕ) (k : ℝ) : Prop :=
  ∀ i m, i < data.length →
    (AdvancedChart.calculateMA data period).getD i none = some m →
    (AdvancedChart.calculateBollingerBands data period k).getD i (none, none) =
      (some ((m : ℝ) + k * popStdAt data period i m),
       some ((m : ℝ) - k * popStdAt data period i m)) ∧
    ∀ u l, (AdvancedChart.calculateBollingerBands data period k).getD i (none, none) =
        (some u, some l) →
      u - (m : ℝ) = (m : ℝ) - l

/-- The claimed stochastic warm-ups: smoothed %K absent on the first
`period + smoothK - 1` indices and %D absent on the first
`period + smoothK + smoothD - 2` indices, both defined from there on. -/
def stochWarmupClaim (data : List Candle) (period smoothK smoothD : ℕ) : Prop :=
  (∀ i < data.length, i < period + smoothK - 1 →
    (AdvancedChart.calculateStochastic data period smoothK smoothD).1.getD i none = none) ∧
  (∀ i < data.length, i < period + smoothK + smoothD - 2 →
    (AdvancedChart.calculateStochastic data period smoothK smoothD).2.getD i none = none) ∧
  (∀ i < data.length, period + smoothK - 1 ≤ i →
    ((AdvancedChart.calculateStochastic data period smoothK smoothD).1.getD i none).isSome) ∧
  (∀ i < data.length, period + smoothK + smoothD - 2 ≤ i →
    ((AdvancedChart.calculateStochastic data period smoothK smoothD).2.getD i none).isSome)

/-- The warm-ups the code actually implements: the partial-window filtered
averaging defines smoothed %K exactly from index `max period smoothK - 1` on
and %D exactly from index `max (max period smoothK) smoothD - 1` on. -/
def stochDefinedSpec (data : List Candle) (period smoothK smoothD : ℕ) : Prop :=
  (∀ i < data.length,
    ((AdvancedChart.calculateStochastic data period smoothK smoothD).1.getD i none).isSome ↔
      max period smoothK - 1 ≤ i) ∧
  (∀ i < data.length,
    ((AdvancedChart.calculateStochastic data period smoothK smoothD).2.getD i none).isSome ↔
      max (max period smoothK) smoothD - 1 ≤ i)

/-- The zero-DX behaviour the ADX mapping actually has (claim C10 amended):
in every completed call, an index at or after the warm-up whose DX is exactly
0 (or undefined) carries an absent adx entry; but whenever any index past
`2*period - 1` has a nonzero DX, the callback there reads the uninitialized
`adx` binding and the whole construction throws, so the substitute-0
recurrence of the source text never executes. -/
def adxZeroDxSpec (data : List Candle) (period : ℕ) : Prop :=
  (∀ l, AdvancedChart.adxList data period = .ok l →
    ∀ i < data.length, 2 * period - 1 ≤ i →
      (((AdvancedChart.diList data period).getD i default).dx = some 0 ∨
       ((AdvancedChart.diList data period).getD i default).dx = none) →
      l.getD i none = none) ∧
  (∀ i d, 2 * period - 1 < i → i < data.length →
    ((AdvancedChart.diList data period).getD i default).dx = some d → d ≠ 0 →
    AdvancedChart.adxList data period = .error .referenceError)

/-- The implicit truthiness of the enrichment step for the macd, histogram and
rsi fields: a computed value of exactly 0 at or after the warm-up is omitted
from the enriched point exactly like a not-yet-computable (null) value. -/
def enrichedTruthySpec (indicators : List String) (data : List Candle) : Prop :=
  ∀ i < data.length,
    ("MACD" ∈ indicators →
      ((AdvancedChart.calculateMACD data 12 26 9).1.getD i none = some 0 ∨
       (AdvancedChart.calculateMACD data 12 26 9).1.getD i none = none) →
      ((AdvancedChart.enrichedData indicators data).getD i default).macd = none) ∧
    ("MACD" ∈ indicators →
      ((AdvancedChart.calculateMACD data 12 26 9).2.2.getD i none = some 0 ∨
       (AdvancedChart.calculateMACD data 12 26 9).2.2.getD i none = none) →
      ((AdvancedChart.enrichedData indicators data).getD i default).histogram = none) ∧
    ("RSI" ∈ indicators →
      ((AdvancedChart.calculateRSI data 14).getD i none = some 0 ∨
       (AdvancedChart.calculateRSI data 14).getD i none = none) →
      ((AdvancedChart.enrichedData indicators data).getD i default).rsi = none)

/-- Documented validator contract: out-of-range numeric values are rejected
with the value-bounds message of the rule, in-range values accepted; the MA
periods string is split on commas with non-numeric entries dropped, and the
whole field is rejected with the periods-bounds message when any parsed entry
is out of range, accepted whole otherwise; plus the three documented concrete
cases. -/
def validatorSpec : Prop :=
  (∀ indicator param rule (q : ℚ),
    Validator.validationRules indicator param = some rule →
    ¬(indicator = "MA" ∧ param = "periods") →
    ((q < rule.min ∨ rule.max < q →
      Validator.validateAndUpdate indicator param (.num q) =
        .rejected (.valueBetween rule.min rule.max)) ∧
     (rule.min ≤ q → q ≤ rule.max →
      Validator.validateAndUpdate indicator param (.num q) = .accepted q))) ∧
  (∀ s : String,
    ((∃ p ∈ Validator.parsedPeriods s, (p : ℚ) < 1 ∨ 500 < (p : ℚ)) →
      Validator.validateAndUpdate "MA" "periods" (.str s) =
        .rejected (.periodsBetween 1 500)) ∧
    ((∀ p ∈ Validator.parsedPeriods s, 1 ≤ (p : ℚ) ∧ (p : ℚ) ≤ 500) →
      Validator.validateAndUpdate "MA" "periods" (.str s) =
        .acceptedPeriods (Validator.parsedPeriods s))) ∧
  Validator.validateAndUpdate "RSI" "period" (.num 150) =
    .rejected (.valueBetween 2 100) ∧
  Validator.validateAndUpdate "MA" "periods" (.str "600") =
    .rejected (.periodsBetween 1 500) ∧
  Validator.validateAndUpdate "MA" "periods" (.str "20, 50") =
    .acceptedPeriods [20, 50]

/- Concrete input data used by the witnesses and counterexamples. -/

/-- Bar with the given high, low and close (open and volume irrelevant to the
calculators under test). -/
def mkCandle (h l c : ℚ) : Candle :=
  ⟨"", c, h, l, c, 0⟩

/-- Bar determined by its close alone. -/
def mkClose (c : ℚ) : Candle :=
  mkCandle c c c

/-- Closes 1..5. -/
def data5 : List Candle :=
  [mkClose 1, mkClose 2, mkClose 3, mkClose 4, mkClose 5]

/-- Monotonically increasing closes 2, 4, .., 12 (every per-bar change is
+2). -/
def incData6 : List Candle :=
  [mkClose 2, mkClose 4, mkClose 6, mkClose 8, mkClose 10, mkClose 12]

/-- Closes 1, 2, 4, 8. -/
def macdData4 : List Candle :=
  [mkClose 1, mkClose 2, mkClose 4, mkClose 8]

/-- Closes 1, 3. -/
def bbData2 : List Candle :=
  [mkClose 1, mkClose 3]

/-- Four bars with distinct rising high/low ranges. -/
def stochData4 : List Candle :=
  [mkCandle 2 0 1, mkCandle 4 2 3, mkCandle 6 4 5, mkCandle 8 6 7]

/-- Six steadily rising bars: every DX from index 2 on equals 100. -/
def monoAdxData6 : List Candle :=
  [mkCandle 12 10 11, mkCandle 14 12 13, mkCandle 16 14 15,
   mkCandle 18 16 17, mkCandle 20 18 19, mkCandle 22 20 21]

/-- Six bars rising through index 3, then one balanced inside bar that drives
DX to exactly 0 at index 4, then a strong up bar (DX nonzero again at
index 5). -/
def zigzagAdxData6 : List Candle :=
  [mkCandle 12 10 11, mkCandle 14 12 13, mkCandle 16 14 15,
   mkCandle 18 16 17, mkCandle 18 (57/4) 15, mkCandle 22 16 20]

/-- The first four rising bars alone: the series ends at the seed index
`2*period - 1`, so the adx construction completes. -/
def monoAdxData4 : List Candle :=
  [mkCandle 12 10 11, mkCandle 14 12 13, mkCandle 16 14 15, mkCandle 18 16 17]

/-- The first five zigzag bars alone: DX is exactly 0 at the last index 4, so
no callback past the warm-up reads the adx binding and the construction
completes. -/
def zigzagAdxData5 : List Candle :=
  [mkCandle 12 10 11, mkCandle 14 12 13, mkCandle 16 14 15,
   mkCandle 18 16 17, mkCandle 18 (57/4) 15]

/-- Twenty-six bars of constant close 5 (macd and histogram are exactly 0 once
defined). -/
def constData26 : List Candle :=
  List.replicate 26 (mkClose 5)

/-- Fifteen strictly decreasing closes (every gain is 0, so the unguarded RSI
is exactly 0 once defined). -/
def decData15 : List Candle :=
  (List.range 15).map (fun i : ℕ => mkClose (100 - (i : ℚ)))

/-- A parameter bundle distinct from every built-in preset bundle. -/
def shadowParams : Presets.IndicatorParams :=
  { RSI := some ⟨7⟩ }

/- Generic lemmas about the indexed-map and window combinators shared by every
calculator. -/

/-- getD of a map over List.range evaluates the body at an in-range index. -/
theorem getD_range_map {α : Type _} (f : ℕ → α) (n i : ℕ) (d : α) (h : i < n) :
    ((List.range n).map f).getD i d = f i := by
  rw [List.getD_eq_getElem?_getD, List.getElem?_map, List.getElem?_range h]
  rfl

/-- A slice `drop (i + 1 - p) / take p` ending at an in-range index `i` is the
map over `List.range p` of the index function. -/
theorem window_eq_range_map {α : Type _} (l : List α) (d : α) (p i : ℕ)
    (h2 : p ≤ i + 1) (h3 : i < l.length) :
    (l.drop (i + 1 - p)).take p = (List.range p).map (fun j => l.getD (i + 1 - p + j) d) := by
  apply List.ext_getElem?
  intro j
  by_cases hj : j < p
  · have hin : i + 1 - p + j < l.length := by omega
    rw [List.getElem?_take_of_lt hj, List.getElem?_drop, List.getElem?_map,
      List.getElem?_range hj, List.getElem?_eq_getElem hin]
    simp [List.getD_eq_getElem?_getD, List.getElem?_eq_getElem hin]
  · have hlen1 : ((l.drop (i + 1 - p)).take p).length = p := by
      simp [List.length_take, List.length_drop]
      omega
    have hlen2 : ((List.range p).map (fun j => l.getD (i + 1 - p + j) d)).length = p := by
      simp
    rw [List.getElem?_eq_none (by omega), List.getElem?_eq_none (by omega)]

/-- Length of the MA output. -/
theorem calculateMA_length (data : List Candle) (period : ℕ) :
    (AdvancedChart.calculateMA data period).length = data.length := by
  simp [AdvancedChart.calculateMA]

/-- Index-wise characterization of calculateMA: none strictly below the
warm-up, the window mean from the warm-up on. -/
theorem calculateMA_getD (data : List Candle) (period : ℕ) (h : 1 ≤ period) (i : ℕ)
    (hi : i < data.length) :
    (AdvancedChart.calculateMA data period).getD i none =
      if period - 1 ≤ i then some (maMean data period i) else none := by
  rw [AdvancedChart.calculateMA, getD_range_map _ _ _ _ hi]
  by_cases hw : period - 1 ≤ i
  · rw [if_neg (by omega), if_pos hw]
    rw [window_eq_range_map data default period i (by omega) hi]
    simp only [maMean, closeAt, List.map_map, Function.comp]
    rfl
  · rw [if_pos (by omega), if_neg hw]

/-- Claim C5 — the MA calculator returns a same-length sequence, absent below
index N-1, equal to the trailing arithmetic mean of close from N-1 on, and
reduces to close passthrough at N = 1. -/
theorem ma_spec_holds (data : List Candle) (period : ℕ) (h1 : 1 ≤ period)
    (h2 : period ≤ data.length) : maSpec data period := by
  refine ⟨calculateMA_length data period, ?_, ?_, ?_⟩
  · intro i hi hw
    rw [calculateMA_getD data period h1 i hi, if_neg (by omega)]
  · intro i hi hw
    rw [calculateMA_getD data period h1 i hi, if_pos hw]
  · intro hp
    subst hp
    apply List.ext_getElem?
    intro i
    by_cases hi : i < data.length
    · have h3 : (AdvancedChart.calculateMA data 1).length = data.length :=
        calculateMA_length data 1
      rw [List.getElem?_map, List.getElem?_eq_getElem hi,
        List.getElem?_eq_getElem (by omega : i < (AdvancedChart.calculateMA data 1).length)]
      have h4 : (AdvancedChart.calculateMA data 1).getD i none = some (maMean data 1 i) := by
        rw [calculateMA_getD data 1 (by omega) i hi, if_pos (by omega)]
      have h5 : (AdvancedChart.calculateMA data 1)[i] =
          (AdvancedChart.calculateMA data 1).getD i none := by
        rw [List.getD_eq_getElem?_getD, List.getElem?_eq_getElem (by omega)]
        rfl
      rw [h5, h4]
      have h6 : maMean data 1 i = closeAt data i := by
        simp [maMean, List.range_succ]
      rw [h6]
      simp [closeAt, List.getD_eq_getElem?_getD, List.getElem?_eq_getElem hi]
    · have ha : data.length ≤ i := by omega
      have hb : (AdvancedChart.calculateMA data 1).length ≤ i := by
        rw [calculateMA_length]
        exact ha
      rw [List.getElem?_eq_none hb, List.getElem?_eq_none (by simpa using ha)]

/-- Witness for C5: MA period 3 over closes 1..5. -/
theorem ma_spec_holds_witness :
    (1 ≤ 3 ∧ 3 ≤ data5.length) ∧ maSpec data5 3 ∧
      AdvancedChart.calculateMA data5 3 = [none, none, some 2, some 3, some 4] :=
  ⟨⟨by norm_num, by norm_num [data5]⟩,
   ma_spec_holds data5 3 (by norm_num) (by norm_num [data5]),
   by norm_num [AdvancedChart.calculateMA, data5, mkClose, mkCandle, List.range_succ]⟩

/-- Claim C1 — the part_014 RSI treats a zero trailing average loss by
substituting 1 for the denominator, so such indices carry
100 - 100 / (1 + avgGain); on the monotonically increasing series incData6
(constant increment 2, period 4) every defined value is the constant
100 - 100 / (1 + 2) = 200/3. -/
theorem rsi_zero_loss_guard (data : List Candle) (period i : ℕ)
    (h1 : period ≤ i) (h2 : i < data.length) (h3 : Part014.avgLossAt data period i = 0) :
    (Part014.calculateRSI data period).getD i none =
      some (100 - 100 / (1 + Part014.avgGainAt data period i)) ∧
    Part014.calculateRSI incData6 4 =
      [none, none, none, none, some (200/3), some (200/3)] := by
  constructor
  · rw [Part014.calculateRSI, getD_range_map _ _ _ _ h2, if_neg (by omega)]
    simp [h3]
  · norm_num [Part014.calculateRSI, Part014.avgGainAt, Part014.avgLossAt, Part014.changes,
      closeAt, incData6, mkClose, mkCandle, List.range_succ]

/-- Witness for C1 at incData6, period 4, index 4. -/
theorem rsi_zero_loss_guard_witness :
    (4 ≤ 4 ∧ 4 < incData6.length ∧ Part014.avgLossAt incData6 4 4 = 0) ∧
    ((Part014.calculateRSI incData6 4).getD 4 none =
      some (100 - 100 / (1 + Part014.avgGainAt incData6 4 4)) ∧
     Part014.calculateRSI incData6 4 =
      [none, none, none, none, some (200/3), some (200/3)]) :=
  ⟨⟨by norm_num, by norm_num [incData6],
    by norm_num [Part014.avgLossAt, Part014.changes, closeAt, incData6, mkClose, mkCandle,
      List.range_succ]⟩,
   rsi_zero_loss_guard incData6 4 4 (by norm_num) (by norm_num [incData6])
     (by norm_num [Part014.avgLossAt, Part014.changes, closeAt, incData6, mkClose, mkCandle,
       List.range_succ])⟩

/-- Index-wise characterization of the macd line. -/
theorem macdLine_getD (data : List Candle) (fast slow : ℕ) (hf : 1 ≤ fast) (hfs : fast < slow)
    (i : ℕ) (hi : i < data.length) :
    (AdvancedChart.macdLine data fast slow).getD i none =
      if slow - 1 ≤ i then some (maMean data fast i - maMean data slow i) else none := by
  rw [AdvancedChart.macdLine, getD_range_map _ _ _ _ hi,
    calculateMA_getD data fast (by omega) i hi, calculateMA_getD data slow (by omega) i hi]
  by_cases hs : slow - 1 ≤ i
  · rw [if_pos hs, if_pos (by omega : fast - 1 ≤ i), if_pos hs]
  · rw [if_neg hs, if_neg hs]
    by_cases hf2 : fast - 1 ≤ i
    · rw [if_pos hf2]
    · rw [if_neg hf2]

/-- Length of the signal bar list. -/
theorem signalCandles_length (data : List Candle) (fast slow : ℕ) :
    (AdvancedChart.signalCandles data fast slow).length = data.length := by
  simp [AdvancedChart.signalCandles]

/-- The closes of the signal bar list are exactly the zero-filled macd
sequence. -/
theorem closeAt_signalCandles (data : List Candle) (fast slow : ℕ) (hf : 1 ≤ fast)
    (hfs : fast < slow) (j : ℕ) :
    closeAt (AdvancedChart.signalCandles data fast slow) j = macdOr0 data fast slow j := by
  by_cases hj : j < data.length
  · rw [closeAt, AdvancedChart.signalCandles, getD_range_map _ _ _ _ hj]
    show ((AdvancedChart.macdLine data fast slow).getD j none).getD 0 = _
    rw [macdLine_getD data fast slow hf hfs j hj, macdOr0]
    by_cases hs : slow - 1 ≤ j
    · rw [if_pos hs, if_pos ⟨hs, hj⟩]
      rfl
    · rw [if_neg hs, if_neg (by tauto)]
      rfl
  · rw [closeAt, List.getD_eq_getElem?_getD,
      List.getElem?_eq_none (by rw [signalCandles_length]; omega), macdOr0, if_neg (by tauto)]
    rfl

/-- Index-wise characterization of the signal line. -/
theorem signal_getD (data : List Candle) (fast slow sp : ℕ) (hf : 1 ≤ fast)
    (hfs : fast < slow) (hsp : 1 ≤ sp) (i : ℕ) (hi : i < data.length) :
    (AdvancedChart.calculateMA (AdvancedChart.signalCandles data fast slow) sp).getD i none =
      if sp - 1 ≤ i then some (signalMean data fast slow sp i) else none := by
  have hlen : i < (AdvancedChart.signalCandles data fast slow).length := by
    rw [signalCandles_length]
    exact hi
  rw [calculateMA_getD _ sp hsp i hlen]
  by_cases h : sp - 1 ≤ i
  · rw [if_pos h, if_pos h]
    have : maMean (AdvancedChart.signalCandles data fast slow) sp i =
        signalMean data fast slow sp i := by
      rw [maMean, signalMean]
      congr 1
      apply congrArg List.sum
      apply List.map_congr_left
      intro a _
      exact closeAt_signalCandles data fast slow hf hfs (i + 1 - sp + a)
    rw [this]
  · rw [if_neg h, if_neg h]

/-- Claim C2 — macd is the difference of the fast and slow moving averages
exactly from slowPeriod - 1 on; the signal is the moving average over the
zero-filled macd sequence, defined from signalPeriod - 1 on; the histogram is
macd minus signal exactly where both are defined. -/
theorem macd_spec_holds (data : List Candle) (fast slow sp : ℕ) (h1 : 1 ≤ fast)
    (h2 : fast < slow) (h3 : 1 ≤ sp) : macdSpec data fast slow sp := by
  intro i hi
  refine ⟨macdLine_getD data fast slow h1 h2 i hi, signal_getD data fast slow sp h1 h2 h3 i hi, ?_⟩
  show (AdvancedChart.histogramLine data fast slow sp).getD i none = _
  rw [AdvancedChart.histogramLine, getD_range_map _ _ _ _ hi,
    macdLine_getD data fast slow h1 h2 i hi, signal_getD data fast slow sp h1 h2 h3 i hi]
  by_cases hs : slow - 1 ≤ i
  · by_cases hp : sp - 1 ≤ i
    · rw [if_pos hs, if_pos hp, if_pos ⟨hs, hp⟩]
    · rw [if_pos hs, if_neg hp, if_neg (by tauto)]
  · by_cases hp : sp - 1 ≤ i
    · rw [if_neg hs, if_pos hp, if_neg (by tauto)]
    · rw [if_neg hs, if_neg hp, if_neg (by tauto)]

/-- Witness for C2: fast 1, slow 2, signal 2 over closes 1, 2, 4, 8, together
with the fully evaluated triple. -/
theorem macd_spec_holds_witness :
    (1 ≤ 1 ∧ 1 < 2 ∧ 1 ≤ 2) ∧ macdSpec macdData4 1 2 2 ∧
      AdvancedChart.calculateMACD macdData4 1 2 2 =
        ([none, some (1/2), some 1, some 2],
         [none, some (1/4), some (3/4), some (3/2)],
         [none, some (1/4), some (1/4), some (1/2)]) :=
  ⟨⟨by norm_num, by norm_num, by norm_num⟩,
   macd_spec_holds macdData4 1 2 2 (by norm_num) (by norm_num) (by norm_num),
   by norm_num [AdvancedChart.calculateMACD, AdvancedChart.macdLine,
     AdvancedChart.histogramLine, AdvancedChart.signalCandles, AdvancedChart.calculateMA,
     closeAt, macdData4, mkClose, mkCandle, List.range_succ]⟩

/-- Claim C6 — wherever the middle band is defined, the Bollinger pair is
middle plus/minus k times the population standard deviation of the same
trailing window, hence symmetric about the middle. -/
theorem bollinger_spec_holds (data : List Candle) (period : ℕ) (k : ℝ) (h1 : 1 ≤ period) :
    bollingerSpec data period k := by
  intro i m hi hm
  have hchar := calculateMA_getD data period h1 i hi
  rw [hm] at hchar
  by_cases hw : period - 1 ≤ i
  · have hband : (AdvancedChart.calculateBollingerBands data period k).getD i (none, none) =
        (some ((m : ℝ) + k * popStdAt data period i m),
         some ((m : ℝ) - k * popStdAt data period i m)) := by
      simp only [AdvancedChart.calculateBollingerBands]
      rw [getD_range_map _ _ _ _ hi, hm,
        window_eq_range_map data default period i (by omega) hi]
      simp only [popStdAt, List.map_map]
      rfl
    refine ⟨hband, ?_⟩
    intro u l huv
    rw [hband, Prod.mk.injEq] at huv
    obtain ⟨hu, hl⟩ := huv
    have hu2 : u = (m : ℝ) + k * popStdAt data period i m := (Option.some.inj hu).symm
    have hl2 : l = (m : ℝ) - k * popStdAt data period i m := (Option.some.inj hl).symm
    rw [hu2, hl2]
    ring
  · rw [if_neg hw] at hchar
    exact absurd hchar (by simp)

/-- Witness for C6: period 2, multiplier 2 over closes 1, 3, middle band 2 at
index 1. -/
theorem bollinger_spec_holds_witness :
    (1 ≤ 2 ∧ (AdvancedChart.calculateMA bbData2 2).getD 1 none = some 2) ∧
      bollingerSpec bbData2 2 2 :=
  ⟨⟨by norm_num,
    by norm_num [AdvancedChart.calculateMA, bbData2, mkClose, mkCandle, List.range_succ]⟩,
   bollinger_spec_holds bbData2 2 2 (by norm_num)⟩

/-- Definedness of the raw stochastic values: exactly from index
`period - 1` on. -/
theorem stochValues_isSome (data : List Candle) (period : ℕ) (j : ℕ) (hj : j < data.length) :
    ((AdvancedChart.stochValues data period).getD j none).isSome ↔ period - 1 ≤ j := by
  rw [AdvancedChart.stochValues, getD_range_map _ _ _ _ hj]
  by_cases h : j < period - 1
  · rw [if_pos h]
    simp
    omega
  · rw [if_neg h]
    simp
    omega

/-- Length of the smoothing step output. -/
theorem smoothAvg_length (xs : List (Option ℚ)) (s : ℕ) :
    (AdvancedChart.smoothAvg xs s).length = xs.length := by
  simp [AdvancedChart.smoothAvg]

/-- Definedness of the filtered window averaging: if the input is defined
exactly from index `b` on, the output is defined exactly where the cutoff
`s - 1` has passed and the window reaches a defined input entry. -/
theorem smoothAvg_isSome (xs : List (Option ℚ)) (s b : ℕ) (hs : 1 ≤ s)
    (hb : ∀ j, j < xs.length → (((xs.getD j none).isSome) ↔ b ≤ j)) (i : ℕ)
    (hi : i < xs.length) :
    ((AdvancedChart.smoothAvg xs s).getD i none).isSome ↔ (b ≤ i ∧ s - 1 ≤ i) := by
  rw [AdvancedChart.smoothAvg, getD_range_map _ _ _ _ hi]
  by_cases hcut : i < s - 1
  · rw [if_pos hcut]
    simp
    omega
  · rw [if_neg hcut]
    have hwin := window_eq_range_map xs none s i (by omega) hi
    by_cases hz : (((xs.drop (i + 1 - s)).take s).filterMap id).length = 0
    · rw [if_pos hz]
      have hnil : ((xs.drop (i + 1 - s)).take s).filterMap id = [] :=
        List.length_eq_zero.mp hz
      have hall := List.filterMap_eq_nil_iff.mp hnil
      have hmem : s - 1 ∈ List.range s := List.mem_range.mpr (by omega)
      have hidx : i + 1 - s + (s - 1) = i := by omega
      have hmem2 : xs.getD i none ∈ (xs.drop (i + 1 - s)).take s := by
        rw [hwin]
        exact List.mem_map.mpr ⟨s - 1, hmem, congrArg (fun t => xs.getD t none) hidx⟩
      have hlast : xs.getD i none = none := hall _ hmem2
      have hnb : ¬ b ≤ i := by
        intro hbi
        have hsome := (hb i hi).mpr hbi
        rw [hlast] at hsome
        simp at hsome
      exact iff_of_false (by simp) (by tauto)
    · rw [if_neg hz]
      simp only [Option.isSome_some, true_iff]
      refine ⟨?_, by omega⟩
      have hex : ∃ a ∈ (xs.drop (i + 1 - s)).take s, a ≠ none := by
        by_contra hno
        push_neg at hno
        have : ((xs.drop (i + 1 - s)).take s).filterMap id = [] :=
          List.filterMap_eq_nil_iff.mpr (fun a ha => hno a ha)
        rw [this] at hz
        simp at hz
      obtain ⟨a, ha, hane⟩ := hex
      rw [hwin] at ha
      obtain ⟨j, hj, hja⟩ := List.mem_map.mp ha
      have hj2 : j < s := List.mem_range.mp hj
      have hidx : i + 1 - s + j < xs.length := by omega
      have hble : b ≤ i + 1 - s + j := by
        apply (hb _ hidx).mp
        rw [hja]
        exact Option.isSome_iff_ne_none.mpr hane
      omega

/-- Corrected stochastic warm-ups (claim C3 amended): smoothed %K is defined
exactly from index `max period smoothK - 1` on and %D exactly from index
`max (max period smoothK) smoothD - 1` on. -/
theorem stoch_defined_spec_holds (data : List Candle) (period smoothK smoothD : ℕ)
    (h1 : 1 ≤ period) (h2 : 1 ≤ smoothK) (h3 : 1 ≤ smoothD) :
    stochDefinedSpec data period smoothK smoothD := by
  have hlen : (AdvancedChart.stochValues data period).length = data.length := by
    simp [AdvancedChart.stochValues]
  have hbase : ∀ j, j < (AdvancedChart.stochValues data period).length →
      (((AdvancedChart.stochValues data period).getD j none).isSome ↔ period - 1 ≤ j) := by
    intro j hj
    exact stochValues_isSome data period j (by omega)
  have hk : ∀ i, i < data.length →
      (((AdvancedChart.smoothAvg (AdvancedChart.stochValues data period) smoothK).getD
        i none).isSome ↔ (period - 1 ≤ i ∧ smoothK - 1 ≤ i)) := by
    intro i hi
    exact smoothAvg_isSome _ smoothK (period - 1) h2 hbase i (by omega)
  constructor
  · intro i hi
    show ((AdvancedChart.smoothAvg (AdvancedChart.stochValues data period) smoothK).getD
      i none).isSome ↔ _
    rw [hk i hi]
    omega
  · intro i hi
    have hklen : (AdvancedChart.smoothAvg (AdvancedChart.stochValues data period)
        smoothK).length = data.length := by
      rw [smoothAvg_length]
      exact hlen
    have hbase2 : ∀ j, j < (AdvancedChart.smoothAvg (AdvancedChart.stochValues data period)
        smoothK).length →
        (((AdvancedChart.smoothAvg (AdvancedChart.stochValues data period) smoothK).getD
          j none).isSome ↔ max period smoothK - 1 ≤ j) := by
      intro j hj
      rw [hk j (by omega)]
      omega
    show ((AdvancedChart.smoothAvg (AdvancedChart.smoothAvg
      (AdvancedChart.stochValues data period) smoothK) smoothD).getD i none).isSome ↔ _
    rw [smoothAvg_isSome _ smoothD (max period smoothK - 1) h3 hbase2 i (by omega)]
    omega

/-- Witness for the amended C3 statement. -/
theorem stoch_defined_spec_holds_witness :
    (1 ≤ 2 ∧ 1 ≤ 2 ∧ 1 ≤ 2) ∧ stochDefinedSpec stochData4 2 2 2 :=
  ⟨⟨by norm_num, by norm_num, by norm_num⟩,
   stoch_defined_spec_holds stochData4 2 2 2 (by norm_num) (by norm_num) (by norm_num)⟩

/-- Counterexample to C3 as stated: with period 2, smoothK 2, smoothD 2 over
stochData4, the smoothed %K at index 1 is already 75 (the filtered partial
window), although the claimed warm-up `period + smoothK - 1 = 3` would make it
absent. -/
theorem stoch_warmup_counterexample :
    ¬ stochWarmupClaim stochData4 2 2 2 ∧
      (AdvancedChart.calculateStochastic stochData4 2 2 2).1.getD 1 none = some 75 := by
  have heval : (AdvancedChart.calculateStochastic stochData4 2 2 2).1.getD 1 none =
      some 75 := by
    norm_num [AdvancedChart.calculateStochastic, AdvancedChart.smoothAvg,
      AdvancedChart.stochValues, closeAt, stochData4, mkCandle, List.range_succ,
      List.max?, List.min?, List.filterMap_cons, List.filterMap_nil]
    exact fun h => Option.noConfusion h
  refine ⟨?_, heval⟩
  intro h
  have h1 := h.1 1 (by norm_num [stochData4]) (by norm_num)
  rw [heval] at h1
  exact Option.noConfusion h1

/-- Length of the per-bar TR/DM list. -/
theorem trDm_length (data : List Candle) : (AdvancedChart.trDm data).length = data.length := by
  simp [AdvancedChart.trDm]

/-- Length of the running DI computation. -/
theorem diGo_length (period : ℕ) (l : List (ℚ × ℚ × ℚ)) :
    ∀ (i : ℕ) (st : ℚ × ℚ × ℚ), (AdvancedChart.diGo period i st l).length = l.length := by
  induction l with
  | nil => intro i st; rfl
  | cons v rest ih =>
    intro i st
    obtain ⟨a, b, c⟩ := st
    rw [AdvancedChart.diGo]
    split
    · simp [ih]
    · simp [ih]

/-- Length of the DI list. -/
theorem diList_length (data : List Candle) (period : ℕ) :
    (AdvancedChart.diList data period).length = data.length := by
  rw [AdvancedChart.diList, diGo_length, trDm_length]

/-- Elements of a completed adx array: when the construction returns ok, the
entry at position j is the callback value at index start + j. -/
theorem adxGo_ok_getD (period : ℕ) (seed : ℚ) (l : List AdvancedChart.DIRec) :
    ∀ (start j : ℕ) (out : List (Option ℚ)),
      AdvancedChart.adxGo period seed start l = .ok out → j < l.length →
      ∃ v, AdvancedChart.adxEntry period seed (start + j) ((l.getD j default).dx) = .ok v ∧
        out.getD j none = v := by
  induction l with
  | nil =>
    intro start j out hok hj
    simp at hj
  | cons r rest ih =>
    intro start j out hok hj
    rw [AdvancedChart.adxGo] at hok
    cases hentry : AdvancedChart.adxEntry period seed start r.dx with
    | error e =>
      simp only [hentry] at hok
      exact Except.noConfusion hok
    | ok cur =>
      simp only [hentry] at hok
      cases hrest : AdvancedChart.adxGo period seed (start + 1) rest with
      | error e =>
        simp only [hrest] at hok
        exact Except.noConfusion hok
      | ok curs =>
        simp only [hrest] at hok
        have hout : cur :: curs = out := by injection hok
        subst hout
        cases j with
        | zero =>
          exact ⟨cur, by simpa using hentry, rfl⟩
        | succ j2 =>
          have hj2 : j2 < rest.length := by simpa using hj
          obtain ⟨v, hv1, hv2⟩ := ih (start + 1) j2 curs hrest hj2
          refine ⟨v, ?_, ?_⟩
          · have harith : start + (j2 + 1) = start + 1 + j2 := by omega
            rw [harith]
            simpa using hv1
          · simpa using hv2

/-- A throwing callback aborts the adx array construction: if any in-range
index evaluates to the ReferenceError, the whole construction is that
error. -/
theorem adxGo_error_of_bad (period : ℕ) (seed : ℚ) (l : List AdvancedChart.DIRec) :
    ∀ (start j : ℕ), j < l.length →
      AdvancedChart.adxEntry period seed (start + j) ((l.getD j default).dx) =
        .error .referenceError →
      AdvancedChart.adxGo period seed start l = .error .referenceError := by
  induction l with
  | nil =>
    intro start j hj _
    simp at hj
  | cons r rest ih =>
    intro start j hj hbad
    rw [AdvancedChart.adxGo]
    cases hentry : AdvancedChart.adxEntry period seed start r.dx with
    | error e =>
      cases e
      simp only [hentry]
    | ok cur =>
      simp only [hentry]
      cases j with
      | zero =>
        simp only [List.getD_cons_zero, Nat.add_zero] at hbad
        rw [hentry] at hbad
        exact Except.noConfusion hbad
      | succ j2 =>
        have hj2 : j2 < rest.length := by simpa using hj
        have hbad2 : AdvancedChart.adxEntry period seed (start + 1 + j2)
            ((rest.getD j2 default).dx) = .error .referenceError := by
          have harith : start + 1 + j2 = start + (j2 + 1) := by omega
          rw [harith]
          simpa using hbad
        rw [ih (start + 1) j2 hj2 hbad2]

/-- Any index past the warm-up with a nonzero DX makes the adx construction
throw: its callback reads the uninitialized adx binding. -/
theorem adxList_error_of_nonzero_dx (data : List Candle) (period : ℕ) (i : ℕ) (d : ℚ)
    (hgt : 2 * period - 1 < i) (hi : i < data.length)
    (hdx : ((AdvancedChart.diList data period).getD i default).dx = some d) (hdne : d ≠ 0) :
    AdvancedChart.adxList data period = .error .referenceError := by
  have hlen : i < (AdvancedChart.diList data period).length := by
    rw [diList_length]
    exact hi
  have hbad : AdvancedChart.adxEntry period (AdvancedChart.adxSeed data period) (0 + i)
      (((AdvancedChart.diList data period).getD i default).dx) = .error .referenceError := by
    rw [hdx, AdvancedChart.adxEntry,
      if_neg (by simp only [Option.getD_some]; push_neg; exact ⟨by omega, hdne⟩),
      if_neg (by omega)]
  rw [AdvancedChart.adxList]
  exact adxGo_error_of_bad period (AdvancedChart.adxSeed data period)
    (AdvancedChart.diList data period) 0 i hlen hbad

/-- Claim C4 (code-bug evidence) — the spec's seeding-plus-Wilder-recurrence
algorithm is the evident intent (the source even writes adx[index - 1] ?? 0),
but the self-referencing map makes calculateADX throw at the first index past
2*period - 1 whose DX is nonzero, so the recurrence values are never
returned: on the six rising bars the call errors although DX at index 4 is
100, while the four-bar prefix (which ends at the seed index) completes and
does return the simple DX average 100 at index 3. -/
theorem adx_tdz_code_bug :
    (∀ (data : List Candle) (period i : ℕ) (d : ℚ), 2 * period - 1 < i → i < data.length →
      ((AdvancedChart.diList data period).getD i default).dx = some d → d ≠ 0 →
      AdvancedChart.calculateADX data period = .error .referenceError) ∧
    AdvancedChart.calculateADX monoAdxData6 2 = .error .referenceError ∧
    ((AdvancedChart.diList monoAdxData6 2).getD 4 default).dx = some 100 ∧
    ((AdvancedChart.diList monoAdxData4 2).getD 2 default).dx = some 100 ∧
    ((AdvancedChart.diList monoAdxData4 2).getD 3 default).dx = some 100 ∧
    AdvancedChart.adxSeed monoAdxData4 2 = 100 ∧
    AdvancedChart.adxList monoAdxData4 2 = .ok [none, none, none, some 100] := by
  have hdx4 : ((AdvancedChart.diList monoAdxData6 2).getD 4 default).dx = some 100 := by
    norm_num [AdvancedChart.diList, AdvancedChart.diGo, AdvancedChart.trDm,
      monoAdxData6, mkCandle, List.range_succ, max_def, abs]
  have hgen : ∀ (data : List Candle) (period i : ℕ) (d : ℚ), 2 * period - 1 < i →
      i < data.length → ((AdvancedChart.diList data period).getD i default).dx = some d →
      d ≠ 0 → AdvancedChart.calculateADX data period = .error .referenceError := by
    intro data period i d hgt hi hdx hdne
    rw [AdvancedChart.calculateADX, adxList_error_of_nonzero_dx data period i d hgt hi hdx hdne]
  refine ⟨hgen, ?_, hdx4, ?_, ?_, ?_, ?_⟩
  · exact hgen monoAdxData6 2 4 100 (by norm_num) (by norm_num [monoAdxData6]) hdx4
      (by norm_num)
  · norm_num [AdvancedChart.diList, AdvancedChart.diGo, AdvancedChart.trDm,
      monoAdxData4, mkCandle, List.range_succ, max_def, abs]
  · norm_num [AdvancedChart.diList, AdvancedChart.diGo, AdvancedChart.trDm,
      monoAdxData4, mkCandle, List.range_succ, max_def, abs]
  · norm_num [AdvancedChart.adxSeed, AdvancedChart.diList, AdvancedChart.diGo,
      AdvancedChart.trDm, monoAdxData4, mkCandle, List.range_succ, max_def, abs]
  · norm_num [AdvancedChart.adxList, AdvancedChart.adxGo, AdvancedChart.adxEntry,
      AdvancedChart.adxSeed, AdvancedChart.diList, AdvancedChart.diGo, AdvancedChart.trDm,
      monoAdxData4, mkCandle, List.range_succ, max_def, abs]

/-- Claim C10 amended — zero-DX suppression in completed calls, and the
throw that replaces the written substitute-0 recurrence. -/
theorem adx_zero_dx_spec_holds (data : List Candle) (period : ℕ) (_hp : 1 ≤ period) :
    adxZeroDxSpec data period := by
  constructor
  · intro l hok i hi hge hdx0
    have hlen : i < (AdvancedChart.diList data period).length := by
      rw [diList_length]
      exact hi
    rw [AdvancedChart.adxList] at hok
    obtain ⟨v, hv1, hv2⟩ := adxGo_ok_getD period (AdvancedChart.adxSeed data period)
      (AdvancedChart.diList data period) 0 i l hok hlen
    have hfalsy : (((AdvancedChart.diList data period).getD i default).dx).getD 0 = 0 := by
      rcases hdx0 with h | h <;> rw [h] <;> rfl
    have hent : AdvancedChart.adxEntry period (AdvancedChart.adxSeed data period) (0 + i)
        (((AdvancedChart.diList data period).getD i default).dx) = .ok none := by
      rw [AdvancedChart.adxEntry, if_pos (Or.inr hfalsy)]
    rw [hent] at hv1
    have hv : none = v := by
      injection hv1
    rw [hv2, ← hv]
  · intro i d hgt hi hdx hdne
    exact adxList_error_of_nonzero_dx data period i d hgt hi hdx hdne

/-- Witness for the amended C10: on the five-bar zigzag prefix the call
completes, index 3 carries the seed 100 and index 4 (DX exactly 0, warm-up
elapsed) carries an absent entry. -/
theorem adx_zero_dx_spec_holds_witness :
    (1 ≤ 2) ∧ adxZeroDxSpec zigzagAdxData5 2 ∧
      AdvancedChart.adxList zigzagAdxData5 2 = .ok [none, none, none, some 100, none] ∧
      ((AdvancedChart.diList zigzagAdxData5 2).getD 4 default).dx = some 0 :=
  ⟨by norm_num, adx_zero_dx_spec_holds zigzagAdxData5 2 (by norm_num),
   by norm_num [AdvancedChart.adxList, AdvancedChart.adxGo, AdvancedChart.adxEntry,
     AdvancedChart.adxSeed, AdvancedChart.diList, AdvancedChart.diGo, AdvancedChart.trDm,
     zigzagAdxData5, mkCandle, List.range_succ, max_def, abs],
   by norm_num [AdvancedChart.diList, AdvancedChart.diGo, AdvancedChart.trDm,
     zigzagAdxData5, mkCandle, List.range_succ, max_def, abs]⟩

/-- Counterexample to C10 as stated: on the six-bar zigzag series DX is
exactly 0 at index 4 and nonzero (1600/23) at index 5, but the callback at
index 5 reads the uninitialized adx binding and the whole call throws, so no
adx array exists and in particular no substituted value is emitted at
index 5. -/
theorem adx_zero_dx_counterexample :
    AdvancedChart.calculateADX zigzagAdxData6 2 = .error .referenceError ∧
    AdvancedChart.adxList zigzagAdxData6 2 = .error .referenceError ∧
    (¬ ∃ out, AdvancedChart.adxList zigzagAdxData6 2 = Except.ok out) ∧
    ((AdvancedChart.diList zigzagAdxData6 2).getD 4 default).dx = some 0 ∧
    ((AdvancedChart.diList zigzagAdxData6 2).getD 5 default).dx = some (1600 / 23) := by
  have hdx5 : ((AdvancedChart.diList zigzagAdxData6 2).getD 5 default).dx =
      some (1600 / 23) := by
    norm_num [AdvancedChart.diList, AdvancedChart.diGo, AdvancedChart.trDm,
      zigzagAdxData6, mkCandle, List.range_succ, max_def, abs]
  have herr : AdvancedChart.adxList zigzagAdxData6 2 = .error .referenceError :=
    adxList_error_of_nonzero_dx zigzagAdxData6 2 5 (1600 / 23) (by norm_num)
      (by norm_num [zigzagAdxData6]) hdx5 (by norm_num)
  refine ⟨?_, herr, ?_, ?_, hdx5⟩
  · rw [AdvancedChart.calculateADX, herr]
  · intro hex
    obtain ⟨out, hout⟩ := hex
    rw [herr] at hout
    exact Except.noConfusion hout
  · norm_num [AdvancedChart.diList, AdvancedChart.diGo, AdvancedChart.trDm,
      zigzagAdxData6, mkCandle, List.range_succ, max_def, abs]
/-- After an upsert, the first entry carrying the new name is the new
preset. -/
theorem find?_upsertByName (l : List Presets.PresetConfig) (np : Presets.PresetConfig) :
    (Presets.upsertByName l np).find? (fun p => p.name == np.name) = some np := by
  induction l with
  | nil =>
    simp [Presets.upsertByName, List.find?_cons]
  | cons x xs ih =>
    have hcons : (x :: xs).findIdx? (fun p => p.name == np.name) =
        if (x.name == np.name) then some 0
        else ((xs.findIdx? (fun p => p.name == np.name)).map (· + 1)) := by
      simp [List.findIdx?_cons]
    rw [Presets.upsertByName, hcons]
    by_cases hx : (x.name == np.name) = true
    · rw [if_pos hx]
      show ((np :: xs).find? fun p => p.name == np.name) = some np
      simp [List.find?_cons]
    · rw [if_neg hx]
      cases hidx : xs.findIdx? (fun p => p.name == np.name) with
      | none =>
        rw [Presets.upsertByName, hidx] at ih
        show ((x :: (xs ++ [np])).find? fun p => p.name == np.name) = some np
        rw [List.find?_cons]
        simp only [hx]
        exact ih
      | some i =>
        rw [Presets.upsertByName, hidx] at ih
        show ((x :: xs.set i np).find? fun p => p.name == np.name) = some np
        rw [List.find?_cons]
        simp only [hx]
        exact ih

/-- Claim C7 amended — the save/get round-trip returns exactly the saved
bundle for every name that does not collide with a built-in preset name (for
a colliding name, getPresetParams resolves the built-in first; see the
counterexample). -/
theorem preset_roundtrip_nonbuiltin (presets : List Presets.PresetConfig) (name : String)
    (params : Presets.IndicatorParams) (description : String)
    (h : ∀ b ∈ Presets.defaultPresets, b.name ≠ name) :
    Presets.getPresetParams (Presets.saveCustomPreset presets name params description) name =
      some params := by
  rw [Presets.getPresetParams, Presets.saveCustomPreset]
  rw [List.find?_append]
  have h1 : Presets.defaultPresets.find? (fun p => p.name == name) = none :=
    List.find?_eq_none.mpr (fun x hx => by simpa using h x hx)
  rw [h1]
  have h2 := find?_upsertByName (presets.filter (fun p => Presets.isCustomTruthy p))
    ⟨name, description, some true, params⟩
  simp only [Option.none_or]
  rw [h2]
  rfl

/-- Witness for the amended C7 statement at a fresh name. -/
theorem preset_roundtrip_nonbuiltin_witness :
    (∀ b ∈ Presets.defaultPresets, b.name ≠ "My Preset") ∧
      Presets.getPresetParams
        (Presets.saveCustomPreset Presets.defaultPresets "My Preset" shadowParams "d")
        "My Preset" = some shadowParams :=
  ⟨by decide,
   preset_roundtrip_nonbuiltin Presets.defaultPresets "My Preset" shadowParams "d" (by decide)⟩

/-- Counterexample to C7 as stated: saving a custom preset under the built-in
name Trend Following succeeds, but getPresetParams then returns the built-in
bundle (built-ins are searched first), not the saved one. -/
theorem preset_shadow_counterexample :
    Presets.getPresetParams
        (Presets.saveCustomPreset Presets.defaultPresets "Trend Following" shadowParams "d")
        "Trend Following" ≠ some shadowParams ∧
      Presets.getPresetParams
        (Presets.saveCustomPreset Presets.defaultPresets "Trend Following" shadowParams "d")
        "Trend Following" =
        some { MA := some ⟨[20, 50, 200]⟩, ADX := some ⟨14⟩ } := by
  constructor
  · decide
  · decide

/-- Claim C8 — the validator rejects out-of-range numeric values with the
value-bounds message and accepts in-range ones; the MA periods list is parsed
by comma-splitting with non-numeric entries dropped and is rejected whole when
any entry is out of range; RSI period 150 is rejected mentioning 2 and 100,
the MA periods string 600 is rejected, and 20, 50 is accepted. -/
theorem validator_spec_holds : validatorSpec := by
  refine ⟨?_, ?_, ?_, ?_, ?_⟩
  · intro indicator param rule q hrule hnotma
    have hbody : Validator.validateAndUpdate indicator param (.num q) =
        (if q < rule.min ∨ rule.max < q
         then .rejected (.valueBetween rule.min rule.max) else .accepted q) := by
      rw [Validator.validateAndUpdate, if_neg hnotma, hrule]
      rfl
    refine ⟨fun hout => ?_, fun hlo hhi => ?_⟩
    · rw [hbody, if_pos hout]
    · rw [hbody, if_neg (by push_neg; exact ⟨hlo, hhi⟩)]
  · intro s
    have hbody : Validator.validateAndUpdate "MA" "periods" (.str s) =
        (if ((Validator.parsedPeriods s).filter
            (fun p : ℤ => (p : ℚ) < 1 ∨ (500 : ℚ) < (p : ℚ))).length ≠ 0
         then .rejected (.periodsBetween 1 500)
         else .acceptedPeriods (Validator.parsedPeriods s)) := by
      rw [Validator.validateAndUpdate, if_pos ⟨rfl, rfl⟩]
      rfl
    refine ⟨fun hex => ?_, fun hall => ?_⟩
    · obtain ⟨p, hp, hout⟩ := hex
      have hmem : p ∈ (Validator.parsedPeriods s).filter
          (fun p : ℤ => (p : ℚ) < 1 ∨ (500 : ℚ) < (p : ℚ)) :=
        List.mem_filter.mpr ⟨hp, by simpa using hout⟩
      rw [hbody, if_pos ?_]
      have hpos := List.length_pos.mpr (List.ne_nil_of_mem hmem)
      omega
    · have hnil : (Validator.parsedPeriods s).filter
          (fun p : ℤ => (p : ℚ) < 1 ∨ (500 : ℚ) < (p : ℚ)) = [] := by
        apply List.filter_eq_nil_iff.mpr
        intro p hp
        have := hall p hp
        simp only [decide_eq_true_eq]
        push_neg
        exact this
      rw [hbody, if_neg (by rw [hnil]; simp)]
  · decide
  · decide
  · decide

/-- Trailing mean of a constant-close series is the constant. -/
theorem maMean_const (c : ℚ) (n p i : ℕ) (hp : 1 ≤ p) (hpi : p ≤ i + 1) (hi : i < n) :
    maMean (List.replicate n (mkClose c)) p i = c := by
  rw [maMean]
  have hmap : (List.range p).map
      (fun j => closeAt (List.replicate n (mkClose c)) (i + 1 - p + j)) =
      (List.range p).map (fun _ => c) := by
    apply List.map_congr_left
    intro j hj
    have hj2 : j < p := List.mem_range.mp hj
    have hidx : i + 1 - p + j < n := by omega
    rw [closeAt, List.getD_eq_getElem?_getD, List.getElem?_replicate, if_pos hidx]
    simp [mkClose, mkCandle]
  rw [hmap]
  have hsum : ((List.range p).map (fun _ => c)).sum = (p : ℚ) * c := by
    simp [List.map_const', List.sum_replicate, nsmul_eq_mul]
  rw [hsum, mul_comm, mul_div_assoc, div_self (by positivity : (p : ℚ) ≠ 0), mul_one]

/-- The macd of the constant series is exactly 0 at index 25. -/
theorem const_macd_getD :
    (AdvancedChart.calculateMACD constData26 12 26 9).1.getD 25 none = some 0 := by
  show (AdvancedChart.macdLine constData26 12 26).getD 25 none = some 0
  rw [macdLine_getD constData26 12 26 (by norm_num) (by norm_num) 25
    (by norm_num [constData26]), if_pos (by norm_num)]
  rw [constData26, maMean_const 5 26 12 25 (by norm_num) (by norm_num) (by norm_num),
    maMean_const 5 26 26 25 (by norm_num) (by norm_num) (by norm_num)]
  norm_num

/-- The zero-filled macd sequence of the constant series is identically 0. -/
theorem const_macdOr0 (j : ℕ) : macdOr0 constData26 12 26 j = 0 := by
  rw [macdOr0]
  by_cases hc : (26 - 1 ≤ j ∧ j < constData26.length)
  · rw [if_pos hc]
    have hj : j < 26 := by
      have := hc.2
      rwa [constData26, List.length_replicate] at this
    rw [constData26, maMean_const 5 26 12 j (by norm_num) (by omega) (by omega),
      maMean_const 5 26 26 j (by norm_num) (by omega) (by omega)]
    norm_num
  · rw [if_neg hc]

/-- The histogram of the constant series is exactly 0 at index 25. -/
theorem const_histogram_getD :
    (AdvancedChart.calculateMACD constData26 12 26 9).2.2.getD 25 none = some 0 := by
  show (AdvancedChart.histogramLine constData26 12 26 9).getD 25 none = some 0
  have hlen : (25 : ℕ) < constData26.length := by norm_num [constData26]
  rw [AdvancedChart.histogramLine, getD_range_map _ _ _ _ hlen,
    macdLine_getD constData26 12 26 (by norm_num) (by norm_num) 25 hlen,
    signal_getD constData26 12 26 9 (by norm_num) (by norm_num) (by norm_num) 25 hlen,
    if_pos (by norm_num), if_pos (by norm_num)]
  have ha : maMean constData26 12 25 = 5 := by
    rw [constData26]
    exact maMean_const 5 26 12 25 (by norm_num) (by norm_num) (by norm_num)
  have hb : maMean constData26 26 25 = 5 := by
    rw [constData26]
    exact maMean_const 5 26 26 25 (by norm_num) (by norm_num) (by norm_num)
  have hsig : signalMean constData26 12 26 9 25 = 0 := by
    rw [signalMean]
    have hmap : (List.range 9).map (fun j => macdOr0 constData26 12 26 (25 + 1 - 9 + j)) =
        (List.range 9).map (fun _ => (0 : ℚ)) := by
      apply List.map_congr_left
      intro j _
      exact const_macdOr0 (25 + 1 - 9 + j)
    rw [hmap]
    simp
  rw [ha, hb, hsig]
  norm_num

/-- The unguarded RSI of the strictly decreasing series is exactly 0 at
index 14. -/
theorem dec_rsi_getD : (AdvancedChart.calculateRSI decData15 14).getD 14 none = some 0 := by
  norm_num [AdvancedChart.calculateRSI, AdvancedChart.changes, closeAt, decData15, mkClose,
    mkCandle, List.range_succ]

/-- The MA block leaves the rsi, macd and histogram fields unchanged. -/
theorem enrichMA_fields (inds : List String) (data : List Candle) (i : ℕ)
    (e : AdvancedChart.EnrichedPoint) :
    (AdvancedChart.enrichMA inds data i e).rsi = e.rsi ∧
    (AdvancedChart.enrichMA inds data i e).macd = e.macd ∧
    (AdvancedChart.enrichMA inds data i e).histogram = e.histogram := by
  rw [AdvancedChart.enrichMA]
  split
  · exact ⟨rfl, rfl, rfl⟩
  · exact ⟨rfl, rfl, rfl⟩

/-- The RSI block writes the rsi field through the truthiness check and
leaves macd and histogram unchanged. -/
theorem enrichRSI_fields (inds : List String) (data : List Candle) (i : ℕ)
    (e : AdvancedChart.EnrichedPoint) :
    (AdvancedChart.enrichRSI inds data i e).rsi =
      (if "RSI" ∈ inds
       then AdvancedChart.truthy ((AdvancedChart.calculateRSI data 14).getD i none)
       else e.rsi) ∧
    (AdvancedChart.enrichRSI inds data i e).macd = e.macd ∧
    (AdvancedChart.enrichRSI inds data i e).histogram = e.histogram := by
  rw [AdvancedChart.enrichRSI]
  by_cases h : "RSI" ∈ inds
  · rw [if_pos h, if_pos h]
    exact ⟨rfl, rfl, rfl⟩
  · rw [if_neg h, if_neg h]
    exact ⟨rfl, rfl, rfl⟩

/-- The Bollinger block leaves the rsi, macd and histogram fields
unchanged. -/
theorem enrichBollinger_fields (inds : List String) (data : List Candle) (i : ℕ)
    (e : AdvancedChart.EnrichedPoint) :
    (AdvancedChart.enrichBollinger inds data i e).rsi = e.rsi ∧
    (AdvancedChart.enrichBollinger inds data i e).macd = e.macd ∧
    (AdvancedChart.enrichBollinger inds data i e).histogram = e.histogram := by
  rw [AdvancedChart.enrichBollinger]
  split
  · exact ⟨rfl, rfl, rfl⟩
  · exact ⟨rfl, rfl, rfl⟩

/-- The MACD block writes the macd and histogram fields through the
truthiness checks and leaves the rsi field unchanged. -/
theorem enrichMACD_fields (inds : List String) (data : List Candle) (i : ℕ)
    (e : AdvancedChart.EnrichedPoint) :
    (AdvancedChart.enrichMACD inds data i e).rsi = e.rsi ∧
    (AdvancedChart.enrichMACD inds data i e).macd =
      (if "MACD" ∈ inds
       then AdvancedChart.truthy ((AdvancedChart.calculateMACD data 12 26 9).1.getD i none)
       else e.macd) ∧
    (AdvancedChart.enrichMACD inds data i e).histogram =
      (if "MACD" ∈ inds
       then AdvancedChart.truthy ((AdvancedChart.calculateMACD data 12 26 9).2.2.getD i none)
       else e.histogram) := by
  rw [AdvancedChart.enrichMACD]
  by_cases h : "MACD" ∈ inds
  · rw [if_pos h, if_pos h, if_pos h]
    exact ⟨rfl, rfl, rfl⟩
  · rw [if_neg h, if_neg h, if_neg h]
    exact ⟨rfl, rfl, rfl⟩

/-- The Stochastic block leaves the rsi, macd and histogram fields
unchanged. -/
theorem enrichStochastic_fields (inds : List String) (data : List Candle) (i : ℕ)
    (e : AdvancedChart.EnrichedPoint) :
    (AdvancedChart.enrichStochastic inds data i e).rsi = e.rsi ∧
    (AdvancedChart.enrichStochastic inds data i e).macd = e.macd ∧
    (AdvancedChart.enrichStochastic inds data i e).histogram = e.histogram := by
  rw [AdvancedChart.enrichStochastic]
  split
  · exact ⟨rfl, rfl, rfl⟩
  · exact ⟨rfl, rfl, rfl⟩

/-- The ADX block leaves the rsi, macd and histogram fields unchanged. -/
theorem enrichADX_fields (inds : List String) (data : List Candle) (i : ℕ)
    (e : AdvancedChart.EnrichedPoint) :
    (AdvancedChart.enrichADX inds data i e).rsi = e.rsi ∧
    (AdvancedChart.enrichADX inds data i e).macd = e.macd ∧
    (AdvancedChart.enrichADX inds data i e).histogram = e.histogram := by
  rw [AdvancedChart.enrichADX]
  split
  · split
    · exact ⟨rfl, rfl, rfl⟩
    · exact ⟨rfl, rfl, rfl⟩
  · exact ⟨rfl, rfl, rfl⟩

/-- Claim C9 — in the enrichment step a macd, histogram or RSI value of
exactly 0 at or after the warm-up is omitted from the enriched point through
the truthiness check, exactly like a null value. -/
theorem enriched_truthy_holds (indicators : List String) (data : List Candle) :
    enrichedTruthySpec indicators data := by
  intro i hi
  have hget : (AdvancedChart.enrichedData indicators data).getD i default =
      AdvancedChart.enrichADX indicators data i
        (AdvancedChart.enrichStochastic indicators data i
          (AdvancedChart.enrichMACD indicators data i
            (AdvancedChart.enrichBollinger indicators data i
              (AdvancedChart.enrichRSI indicators data i
                (AdvancedChart.enrichMA indicators data i
                  (AdvancedChart.basePoint (data.getD i default))))))) := by
    rw [AdvancedChart.enrichedData, getD_range_map _ _ _ _ hi]
  refine ⟨?_, ?_, ?_⟩
  · intro hmem hval
    rw [hget, (enrichADX_fields _ _ _ _).2.1, (enrichStochastic_fields _ _ _ _).2.1,
      (enrichMACD_fields _ _ _ _).2.1, if_pos hmem]
    rcases hval with h | h <;> rw [h] <;> simp [AdvancedChart.truthy]
  · intro hmem hval
    rw [hget, (enrichADX_fields _ _ _ _).2.2, (enrichStochastic_fields _ _ _ _).2.2,
      (enrichMACD_fields _ _ _ _).2.2, if_pos hmem]
    rcases hval with h | h <;> rw [h] <;> simp [AdvancedChart.truthy]
  · intro hmem hval
    rw [hget, (enrichADX_fields _ _ _ _).1, (enrichStochastic_fields _ _ _ _).1,
      (enrichMACD_fields _ _ _ _).1, (enrichBollinger_fields _ _ _ _).1,
      (enrichRSI_fields _ _ _ _).1, if_pos hmem]
    rcases hval with h | h <;> rw [h] <;> simp [AdvancedChart.truthy]

/-- Witness for C9: on the constant series macd and histogram are 0 at
index 25 and omitted; on the decreasing series the RSI is 0 at index 14 and
omitted. -/
theorem enriched_truthy_holds_witness :
    (25 < constData26.length ∧
     (AdvancedChart.calculateMACD constData26 12 26 9).1.getD 25 none = some 0 ∧
     (AdvancedChart.calculateMACD constData26 12 26 9).2.2.getD 25 none = some 0 ∧
     14 < decData15.length ∧
     (AdvancedChart.calculateRSI decData15 14).getD 14 none = some 0) ∧
    ((AdvancedChart.enrichedData ["MACD"] constData26).getD 25 default).macd = none ∧
    ((AdvancedChart.enrichedData ["MACD"] constData26).getD 25 default).histogram = none ∧
    ((AdvancedChart.enrichedData ["RSI"] decData15).getD 14 default).rsi = none := by
  refine ⟨⟨by norm_num [constData26], const_macd_getD, const_histogram_getD,
    by rw [decData15, List.length_map, List.length_range]; omega, dec_rsi_getD⟩, ?_, ?_, ?_⟩
  · exact (enriched_truthy_holds ["MACD"] constData26 25
      (by norm_num [constData26])).1 (by simp) (Or.inl const_macd_getD)
  · exact (enriched_truthy_holds ["MACD"] constData26 25
      (by norm_num [constData26])).2.1 (by simp) (Or.inl const_histogram_getD)
  · exact (enriched_truthy_holds ["RSI"] decData15 14
      (by rw [decData15, List.length_map, List.length_range]; omega)).2.2 (by simp) (Or.inl dec_rsi_getD)
